import Mathlib

/-!
Verification of the Proxmox LXC manager API client and command facade
(`src-tauri/src/proxmox.rs` and `src-tauri/src/lib.rs`), as a shallow
embedding.  HTTP transport effects are modelled by an explicit
`Transport` environment giving the response of each remote endpoint;
the Rust functions become pure Lean functions of that environment.
Machine integers (`u32`, `u64`) only flow through unchanged, so they
are modelled as `Nat`; the `f64` field `cpu` is never computed with
(only defaulted and passed through), so it is modelled as `Rat`.
-/

namespace Proxmox

/-- Domain model returned to callers (proxmox.rs, struct `Container`). -/
structure Container where
  vmid : Nat
  name : String
  status : String
  uptime : Nat
  memory : Nat
  max_memory : Nat
  cpu : Rat
  cpus : Nat
  disk_read : Nat
  disk_write : Nat
  ip_address : Option String
deriving Repr, DecidableEq

/-- Raw wire record (proxmox.rs, struct `ProxmoxContainer`): every field
except `vmid` and `status` is optional. -/
structure ProxmoxContainer where
  vmid : Nat
  name : Option String
  status : String
  uptime : Option Nat
  mem : Option Nat
  maxmem : Option Nat
  cpu : Option Rat
  cpus : Option Nat
  diskread : Option Nat
  diskwrite : Option Nat
deriving Repr, DecidableEq

/-- Wire record for one network interface (proxmox.rs, struct
`NetworkInterface`). -/
structure NetworkInterface where
  name : String
  inet : Option String
deriving Repr, DecidableEq

/-- Outcome of one HTTP exchange, as the client code observes it:
either the send itself failed (reqwest error, rendered as a message),
or a response arrived with a status code and a body that the client
may try to decode into `α` (decoding can fail). -/
inductive HttpResponse (α : Type) where
  | sendErr (msg : String)
  | response (code : Nat) (body : Except String α)

/-- `reqwest::StatusCode::is_success`: status in the 2xx range. -/
def is_success (code : Nat) : Bool :=
  200 ≤ code && code < 300

/-- The transport environment: the remote responses that one run of the
client would observe, per endpoint.  `interfaces`, `startResp`,
`stopResp`, `deleteResp` are indexed by the vmid in the request URL.
Lifecycle-endpoint bodies are never inspected, hence `Unit`. -/
structure Transport where
  lxcList : HttpResponse (List ProxmoxContainer)
  interfaces : Nat → HttpResponse (List NetworkInterface)
  startResp : Nat → HttpResponse Unit
  stopResp : Nat → HttpResponse Unit
  deleteResp : Nat → HttpResponse Unit

/-- Client configuration (proxmox.rs, struct `ProxmoxClient`); the
reqwest `client` handle itself carries no observable state and is
omitted. -/
structure ProxmoxClient where
  host : String
  node : String
  token_id : String
  token_secret : String
deriving Repr, DecidableEq

/-- `env::var` followed by `map_err`: a set variable yields its value,
an unset one the given error message. -/
def envVar (v : Option String) (msg : String) : Except String String :=
  match v with
  | some s => Except.ok s
  | none => Except.error msg

/-- `ProxmoxClient::new` (proxmox.rs lines 55-79).  The four environment
variables are passed in as `Option String` (absent = unset).  Building
the reqwest client (which merely configures acceptance of self-signed
certificates) is construction of an external collaborator and is
modelled as always succeeding. -/
def ProxmoxClient.new (h n i s : Option String) : Except String ProxmoxClient := do
  let host ← envVar h "PROXMOX_HOST not set in .env file"
  let node ← envVar n "PROXMOX_NODE not set in .env file"
  let token_id ← envVar i "PROXMOX_TOKEN_ID not set in .env file"
  let token_secret ← envVar s "PROXMOX_TOKEN_SECRET not set in .env file"
  pure { host := host, node := node, token_id := token_id, token_secret := token_secret }

/-- `ProxmoxClient::auth_header` (proxmox.rs lines 81-83). -/
def ProxmoxClient.auth_header (c : ProxmoxClient) : String :=
  "PVEAPIToken=" ++ c.token_id ++ "=" ++ c.token_secret

/-- `inet.split('/').next().unwrap_or(&inet)`: the text before the first
slash, which is the longest slash-free prefix of the string (the whole
string when there is no slash). -/
def takeBeforeSlash (inet : String) : String :=
  String.mk (inet.toList.takeWhile (fun c => c ≠ '/'))

/-- The scanning loop of `get_container_ip` (proxmox.rs lines 153-162):
first interface whose name is not "lo" and whose `inet` is present
yields its address with the prefix length stripped; otherwise the
"No IP found" error. -/
def scanInterfaces : List NetworkInterface → Except String String
  | [] => Except.error "No IP found"
  | iface :: rest =>
    if iface.name ≠ "lo" then
      match iface.inet with
      | some inet => Except.ok (takeBeforeSlash inet)
      | none => scanInterfaces rest
    else scanInterfaces rest

/-- `ProxmoxClient::get_container_ip` (proxmox.rs lines 131-163), as a
function of the interfaces-endpoint response for the requested vmid. -/
def get_container_ip (resp : HttpResponse (List NetworkInterface)) : Except String String :=
  match resp with
  | HttpResponse.sendErr e => Except.error ("Failed to fetch IP: " ++ e)
  | HttpResponse.response code body =>
    if ! is_success code then Except.error "Failed to get IP"
    else
      match body with
      | Except.error _ => Except.error "Failed to parse interfaces"
      | Except.ok ifaces => scanInterfaces ifaces

/-- The per-record enrichment step of `get_containers` (proxmox.rs lines
106-110): only a record whose status is "running" triggers the
interfaces call, and its `Result` is downgraded to an `Option` by
`.ok()`. -/
def enrichIp (t : Transport) (ct : ProxmoxContainer) : Option String :=
  if ct.status = "running" then (get_container_ip (t.interfaces ct.vmid)).toOption
  else none

/-- The body of the push in the `get_containers` loop (proxmox.rs lines
112-124): normalization of one raw record with the documented defaults
for absent optional fields. -/
def normalizeContainer (ct : ProxmoxContainer) (ip_address : Option String) : Container :=
  { vmid := ct.vmid
    name := ct.name.getD ("CT-" ++ toString ct.vmid)
    status := ct.status
    uptime := ct.uptime.getD 0
    memory := ct.mem.getD 0
    max_memory := ct.maxmem.getD 0
    cpu := ct.cpu.getD 0
    cpus := ct.cpus.getD 1
    disk_read := ct.diskread.getD 0
    disk_write := ct.diskwrite.getD 0
    ip_address := ip_address }

/-- The comparison key of `containers.sort_by_key(|c| c.vmid)`. -/
def byVmid (a b : Container) : Bool :=
  a.vmid ≤ b.vmid

/-- `ProxmoxClient::get_containers` (proxmox.rs lines 85-129), as a
function of the transport environment.  The accumulation loop becomes a
map; `sort_by_key` (a stable ascending sort) becomes `mergeSort`. -/
def get_containers (t : Transport) : Except String (List Container) :=
  match t.lxcList with
  | HttpResponse.sendErr e => Except.error ("Failed to fetch containers: " ++ e)
  | HttpResponse.response code body =>
    if ! is_success code then Except.error ("API error: " ++ toString code)
    else
      match body with
      | Except.error e => Except.error ("Failed to parse response: " ++ e)
      | Except.ok data =>
        let containers := data.map (fun ct => normalizeContainer ct (enrichIp t ct))
        Except.ok (containers.mergeSort byVmid)

/-- `ProxmoxClient::start_container` (proxmox.rs lines 165-183); the
status code is rendered by its number. -/
def start_container (t : Transport) (vmid : Nat) : Except String String :=
  match t.startResp vmid with
  | HttpResponse.sendErr e => Except.error ("Failed to start container: " ++ e)
  | HttpResponse.response code _ =>
    if ! is_success code then Except.error ("Failed to start container: " ++ toString code)
    else Except.ok ("Container " ++ toString vmid ++ " started successfully")

/-- `ProxmoxClient::stop_container` (proxmox.rs lines 185-203). -/
def stop_container (t : Transport) (vmid : Nat) : Except String String :=
  match t.stopResp vmid with
  | HttpResponse.sendErr e => Except.error ("Failed to stop container: " ++ e)
  | HttpResponse.response code _ =>
    if ! is_success code then Except.error ("Failed to stop container: " ++ toString code)
    else Except.ok ("Container " ++ toString vmid ++ " stopped successfully")

/-- `ProxmoxClient::delete_container` (proxmox.rs lines 205-223). -/
def delete_container (t : Transport) (vmid : Nat) : Except String String :=
  match t.deleteResp vmid with
  | HttpResponse.sendErr e => Except.error ("Failed to delete container: " ++ e)
  | HttpResponse.response code _ =>
    if ! is_success code then Except.error ("Failed to delete container: " ++ toString code)
    else Except.ok ("Container " ++ toString vmid ++ " deleted successfully")

/-- One HTTP request issued by the client, identified by its endpoint
(lib.rs delegates issue these through proxmox.rs). -/
inductive ApiCall where
  | lxcList
  | interfaces (vmid : Nat)
  | start (vmid : Nat)
  | stop (vmid : Nat)
  | delete (vmid : Nat)
deriving Repr, DecidableEq

/-- The network calls one run of `get_containers` issues: the listing
request, then — only when the listing succeeded and decoded — one
interfaces request per record whose status is "running", in record
order (proxmox.rs lines 88-110). -/
def get_containers_calls (t : Transport) : List ApiCall :=
  ApiCall.lxcList ::
    (match t.lxcList with
     | HttpResponse.response code (Except.ok data) =>
       if is_success code then
         (data.filter (fun ct => ct.status = "running")).map (fun ct => ApiCall.interfaces ct.vmid)
       else []
     | _ => [])

/-- Display snapshot (lib.rs, struct `ProxmoxConfig`). -/
structure ProxmoxConfig where
  host : String
  node : String
deriving Repr, DecidableEq

/-- Shared application state (lib.rs, struct `AppState`): the
mutex-guarded optional client and the configuration snapshot.  The
facade commands below thread the state explicitly; the source never
assigns to either field after `run` installs them. -/
structure AppState where
  proxmox : Option ProxmoxClient
  config : ProxmoxConfig
deriving Repr, DecidableEq

/-- `get_config` command (lib.rs lines 20-26): clones the snapshot,
always succeeds, performs no network call. -/
def facade_get_config (st : AppState) : (ProxmoxConfig × List ApiCall) × AppState :=
  (({ host := st.config.host, node := st.config.node }, []), st)

/-- `get_containers` command (lib.rs lines 28-39): clone the guarded
client out; with no client, fail with the fixed message and no network
call; otherwise delegate. -/
def facade_get_containers (st : AppState) (t : Transport) :
    (Except String (List Container) × List ApiCall) × AppState :=
  match st.proxmox with
  | some _ => ((get_containers t, get_containers_calls t), st)
  | none => ((Except.error "Proxmox client not initialized", []), st)

/-- `start_container` command (lib.rs lines 41-52). -/
def facade_start_container (st : AppState) (t : Transport) (vmid : Nat) :
    (Except String String × List ApiCall) × AppState :=
  match st.proxmox with
  | some _ => ((start_container t vmid, [ApiCall.start vmid]), st)
  | none => ((Except.error "Proxmox client not initialized", []), st)

/-- `stop_container` command (lib.rs lines 54-65). -/
def facade_stop_container (st : AppState) (t : Transport) (vmid : Nat) :
    (Except String String × List ApiCall) × AppState :=
  match st.proxmox with
  | some _ => ((stop_container t vmid, [ApiCall.stop vmid]), st)
  | none => ((Except.error "Proxmox client not initialized", []), st)

/-- `delete_container` command (lib.rs lines 67-78). -/
def facade_delete_container (st : AppState) (t : Transport) (vmid : Nat) :
    (Except String String × List ApiCall) × AppState :=
  match st.proxmox with
  | some _ => ((delete_container t vmid, [ApiCall.delete vmid]), st)
  | none => ((Except.error "Proxmox client not initialized", []), st)

/-- `true` exactly for the `ok` constructor of an `Except` result. -/
def exceptOk {ε α : Type} : Except ε α → Bool
  | Except.ok _ => true
  | Except.error _ => false

/-! Concrete inputs used to exercise the theorems below. -/

/-- The raw record of the spec example: vmid 101, running, mem set. -/
def exCt101 : ProxmoxContainer :=
  { vmid := 101, name := none, status := "running", uptime := none,
    mem := some 512000000, maxmem := none, cpu := none, cpus := none,
    diskread := none, diskwrite := none }

/-- A stopped raw record with all optional fields absent. -/
def exCtStopped : ProxmoxContainer :=
  { vmid := 102, name := none, status := "stopped", uptime := none,
    mem := none, maxmem := none, cpu := none, cpus := none,
    diskread := none, diskwrite := none }

/-- Two raw records sharing vmid 5. -/
def exCt5 : ProxmoxContainer :=
  { vmid := 5, name := some "a", status := "stopped", uptime := none,
    mem := none, maxmem := none, cpu := none, cpus := none,
    diskread := none, diskwrite := none }

def exCt5b : ProxmoxContainer :=
  { vmid := 5, name := some "b", status := "stopped", uptime := none,
    mem := none, maxmem := none, cpu := none, cpus := none,
    diskread := none, diskwrite := none }

/-- The interface list of the spec example. -/
def exIfaces : List NetworkInterface :=
  [{ name := "eth0", inet := some "10.0.0.5/24" },
   { name := "lo", inet := some "127.0.0.1/8" }]

/-- A transport whose listing succeeds with the single running record
101 but whose interfaces endpoint fails at the send. -/
def exT1 : Transport :=
  { lxcList := HttpResponse.response 200 (Except.ok [exCt101])
    interfaces := fun _ => HttpResponse.sendErr "connection refused"
    startResp := fun _ => HttpResponse.response 200 (Except.ok ())
    stopResp := fun _ => HttpResponse.response 200 (Except.ok ())
    deleteResp := fun _ => HttpResponse.response 200 (Except.ok ()) }

/-- A transport listing one stopped record while the interfaces endpoint
would answer successfully with a usable address. -/
def exT2 : Transport :=
  { lxcList := HttpResponse.response 200 (Except.ok [exCtStopped])
    interfaces := fun _ => HttpResponse.response 200 (Except.ok exIfaces)
    startResp := fun _ => HttpResponse.response 200 (Except.ok ())
    stopResp := fun _ => HttpResponse.response 200 (Except.ok ())
    deleteResp := fun _ => HttpResponse.response 200 (Except.ok ()) }

/-- A transport whose listing carries two records with the same vmid. -/
def exTDup : Transport :=
  { lxcList := HttpResponse.response 200 (Except.ok [exCt5, exCt5b])
    interfaces := fun _ => HttpResponse.sendErr "unused"
    startResp := fun _ => HttpResponse.response 200 (Except.ok ())
    stopResp := fun _ => HttpResponse.response 200 (Except.ok ())
    deleteResp := fun _ => HttpResponse.response 200 (Except.ok ()) }

/-- A transport whose lifecycle endpoints answer HTTP 500. -/
def exT500 : Transport :=
  { lxcList := HttpResponse.response 200 (Except.ok [])
    interfaces := fun _ => HttpResponse.sendErr "unused"
    startResp := fun _ => HttpResponse.response 500 (Except.ok ())
    stopResp := fun _ => HttpResponse.response 500 (Except.ok ())
    deleteResp := fun _ => HttpResponse.response 500 (Except.ok ()) }

/-- Application state after a failed client construction. -/
def exStateNone : AppState :=
  { proxmox := none, config := { host := "pve.local", node := "pve" } }

/-! Helper lemmas shared by the claim theorems. -/

theorem get_containers_ok_shape (t : Transport) (code : Nat) (data : List ProxmoxContainer)
    (hl : t.lxcList = HttpResponse.response code (Except.ok data))
    (hc : is_success code = true) :
    get_containers t =
      Except.ok ((data.map (fun ct => normalizeContainer ct (enrichIp t ct))).mergeSort byVmid) := by
  simp [get_containers, hl, hc]

theorem get_containers_ok_inv (t : Transport) (out : List Container)
    (h : get_containers t = Except.ok out) :
    ∃ code data, t.lxcList = HttpResponse.response code (Except.ok data) ∧
      is_success code = true ∧
      out = (data.map (fun ct => normalizeContainer ct (enrichIp t ct))).mergeSort byVmid := by
  unfold get_containers at h
  match hl : t.lxcList with
  | HttpResponse.sendErr e => rw [hl] at h; simp at h
  | HttpResponse.response code body =>
    rw [hl] at h
    by_cases hc : is_success code
    · match body with
      | Except.error e => simp [hc] at h
      | Except.ok data =>
        refine ⟨code, data, rfl, hc, ?_⟩
        simpa [hc] using h.symm
    · simp [hc] at h

theorem byVmid_trans (a b c : Container) : byVmid a b → byVmid b c → byVmid a c := by
  simp only [byVmid, decide_eq_true_eq]
  omega

theorem byVmid_total (a b : Container) : byVmid a b || byVmid b a := by
  simp only [byVmid]
  by_cases h : a.vmid ≤ b.vmid
  · simp [h]
  · simp [h]; omega

/-- A failing enrichment leaves `enrichIp` at `none`. -/
theorem enrichIp_of_fail (t : Transport) (ct : ProxmoxContainer)
    (hfail : ∃ e, get_container_ip (t.interfaces ct.vmid) = Except.error e) :
    enrichIp t ct = none := by
  obtain ⟨e, he⟩ := hfail
  unfold enrichIp
  by_cases hs : ct.status = "running"
  · simp [hs, he, Except.toOption]
  · simp [hs]

/-! The claim theorems. -/

/-- C3: normalization of a raw wire record yields the documented
defaults for each absent optional field — uptime 0, memory 0, max
memory 0, cpu 0, cpus 1, disk read 0, disk write 0, and the name
"CT-<vmid>" synthesized from the vmid — while vmid and status are
carried over unchanged for every record. -/
theorem C3_normalize_defaults (vmid : Nat) (status : String) (ip : Option String)
    (ct : ProxmoxContainer) :
    normalizeContainer
        { vmid := vmid, name := none, status := status, uptime := none,
          mem := none, maxmem := none, cpu := none, cpus := none,
          diskread := none, diskwrite := none } ip =
      { vmid := vmid, name := "CT-" ++ toString vmid, status := status,
        uptime := 0, memory := 0, max_memory := 0, cpu := 0, cpus := 1,
        disk_read := 0, disk_write := 0, ip_address := ip } ∧
    (normalizeContainer ct ip).vmid = ct.vmid ∧
    (normalizeContainer ct ip).status = ct.status :=
  ⟨rfl, rfl, rfl⟩

/-- C6: on a successful interfaces response, enrichment scans the
interface list in response order and returns the inet address of the
first interface whose name is not "lo" and whose inet is present, with
the prefix-length suffix stripped at the first slash; with no such
interface it reports the "No IP found" local failure. -/
theorem C6_first_usable_interface (ifaces : List NetworkInterface) (code : Nat)
    (hc : is_success code = true) :
    get_container_ip (HttpResponse.response code (Except.ok ifaces)) =
      match ifaces.find? (fun i => i.name ≠ "lo" && i.inet.isSome) with
      | some i => Except.ok (takeBeforeSlash (i.inet.getD ""))
      | none => Except.error "No IP found" := by
  have hscan : scanInterfaces ifaces =
      match ifaces.find? (fun i => i.name ≠ "lo" && i.inet.isSome) with
      | some i => Except.ok (takeBeforeSlash (i.inet.getD ""))
      | none => Except.error "No IP found" := by
    induction ifaces with
    | nil => rfl
    | cons iface rest ih =>
      by_cases hlo : iface.name = "lo"
      · simp [scanInterfaces, hlo, List.find?_cons, ih]
      · match hin : iface.inet with
        | some inet => simp [scanInterfaces, hlo, hin, List.find?_cons]
        | none => simp [scanInterfaces, hlo, hin, List.find?_cons, ih]
  simpa [get_container_ip, hc] using hscan

/-- Witness for C6 at the spec example interface list. -/
theorem C6_first_usable_interface_witness :
    get_container_ip (HttpResponse.response 200 (Except.ok exIfaces)) =
      Except.ok "10.0.0.5" := by
  have h := C6_first_usable_interface exIfaces 200 (by decide)
  have hf : exIfaces.find? (fun i => i.name ≠ "lo" && i.inet.isSome) =
      some { name := "eth0", inet := some "10.0.0.5/24" } := by decide
  rw [h, hf]
  exact congrArg Except.ok (by decide)

/-- C7: client construction fails with an error naming the specific
absent environment variable whenever one of host, node, token id or
token secret is unset (checked in that order), and succeeds with all
four carried into the client when all are present. -/
theorem C7_missing_credential (h n i s : Option String) :
    (exceptOk (ProxmoxClient.new h n i s) = true ↔
      (h.isSome ∧ n.isSome ∧ i.isSome ∧ s.isSome)) ∧
    (h = none →
      ProxmoxClient.new h n i s = Except.error "PROXMOX_HOST not set in .env file") ∧
    (h.isSome → n = none →
      ProxmoxClient.new h n i s = Except.error "PROXMOX_NODE not set in .env file") ∧
    (h.isSome → n.isSome → i = none →
      ProxmoxClient.new h n i s = Except.error "PROXMOX_TOKEN_ID not set in .env file") ∧
    (h.isSome → n.isSome → i.isSome → s = none →
      ProxmoxClient.new h n i s = Except.error "PROXMOX_TOKEN_SECRET not set in .env file") ∧
    (h.isSome → n.isSome → i.isSome → s.isSome →
      ∃ c, ProxmoxClient.new h n i s = Except.ok c ∧
        h = some c.host ∧ n = some c.node ∧ i = some c.token_id ∧ s = some c.token_secret) := by
  match h, n, i, s with
  | none, _, _, _ =>
    simp [ProxmoxClient.new, envVar, exceptOk, Bind.bind, Except.bind]
  | some hv, none, _, _ =>
    simp [ProxmoxClient.new, envVar, exceptOk, Bind.bind, Except.bind]
  | some hv, some nv, none, _ =>
    simp [ProxmoxClient.new, envVar, exceptOk, Bind.bind, Except.bind]
  | some hv, some nv, some iv, none =>
    simp [ProxmoxClient.new, envVar, exceptOk, Bind.bind, Except.bind]
  | some hv, some nv, some iv, some sv =>
    refine ⟨by simp [ProxmoxClient.new, envVar, exceptOk, Bind.bind, Except.bind, Pure.pure, Except.pure], ?_, ?_, ?_, ?_, ?_⟩
    · intro hh; cases hh
    · intro _ hh; cases hh
    · intro _ _ hh; cases hh
    · intro _ _ _ hh; cases hh
    · intro _ _ _ _
      exact ⟨{ host := hv, node := nv, token_id := iv, token_secret := sv }, rfl, rfl, rfl, rfl, rfl⟩

/-- Witness for C7: with the node variable unset, construction fails
naming the node variable. -/
theorem C7_missing_credential_witness :
    ProxmoxClient.new (some "pve.local") none (some "root") (some "secret") =
      Except.error "PROXMOX_NODE not set in .env file" :=
  (C7_missing_credential (some "pve.local") none (some "root") (some "secret")).2.2.1
    (by simp) rfl

/-- C1: an enrichment failure of any kind for one running container
does not fail the overall listing and removes no entry: all records
are still returned (one output container per input record) and the
affected container appears with `ip_address` absent. -/
theorem C1_enrichment_failure_isolated
    (t : Transport) (code : Nat) (data : List ProxmoxContainer) (ct : ProxmoxContainer)
    (hl : t.lxcList = HttpResponse.response code (Except.ok data))
    (hc : is_success code = true)
    (hmem : ct ∈ data)
    (hfail : ∃ e, get_container_ip (t.interfaces ct.vmid) = Except.error e) :
    ∃ out, get_containers t = Except.ok out ∧
      out.length = data.length ∧
      out.Perm (data.map (fun c => normalizeContainer c (enrichIp t c))) ∧
      normalizeContainer ct none ∈ out := by
  refine ⟨_, get_containers_ok_shape t code data hl hc, ?_, ?_, ?_⟩
  · rw [(List.mergeSort_perm _ _).length_eq, List.length_map]
  · exact List.mergeSort_perm _ _
  · rw [List.mem_mergeSort]
    have : normalizeContainer ct (enrichIp t ct) = normalizeContainer ct none := by
      rw [enrichIp_of_fail t ct hfail]
    exact this ▸ List.mem_map_of_mem _ hmem

/-- Witness for C1: the interfaces endpoint of `exT1` fails at the
send, yet the listing succeeds and still carries container 101,
without an address. -/
theorem C1_enrichment_failure_isolated_witness :
    ∃ out, get_containers exT1 = Except.ok out ∧
      out.length = [exCt101].length ∧
      out.Perm ([exCt101].map (fun c => normalizeContainer c (enrichIp exT1 c))) ∧
      normalizeContainer exCt101 none ∈ out :=
  C1_enrichment_failure_isolated exT1 200 [exCt101] exCt101 rfl (by decide)
    (List.mem_singleton.mpr rfl) ⟨"Failed to fetch IP: connection refused", rfl⟩

/-- C2: in every successful listing, a returned container whose status
is not "running" has no `ip_address`, regardless of what the
interfaces endpoint would have answered. -/
theorem C2_ip_absent_unless_running
    (t : Transport) (out : List Container) (c : Container)
    (hout : get_containers t = Except.ok out)
    (hc : c ∈ out)
    (hs : c.status ≠ "running") :
    c.ip_address = none := by
  obtain ⟨code, data, hl, hcode, rfl⟩ := get_containers_ok_inv t out hout
  rw [List.mem_mergeSort] at hc
  obtain ⟨ct, hct, rfl⟩ := List.mem_map.mp hc
  have hst : ct.status ≠ "running" := by
    simpa [normalizeContainer] using hs
  simp [normalizeContainer, enrichIp, hst]

/-- Witness for C2: `exT2` lists a stopped container while its
interfaces endpoint would succeed with a usable address; the returned
entry still has no address. -/
theorem C2_ip_absent_unless_running_witness :
    (normalizeContainer exCtStopped (enrichIp exT2 exCtStopped)).ip_address = none :=
  C2_ip_absent_unless_running exT2
    (([exCtStopped].map (fun c => normalizeContainer c (enrichIp exT2 c))).mergeSort byVmid)
    (normalizeContainer exCtStopped (enrichIp exT2 exCtStopped))
    (get_containers_ok_shape exT2 200 [exCtStopped] rfl (by decide))
    (by simp)
    (by decide)

/-- C4: a successful listing returns the records sorted ascending by
vmid whatever the input order, with exactly one output container per
input record (duplicates are passed through, not deduplicated): the
output is a permutation of the normalized input and has its length. -/
theorem C4_sorted_by_vmid_count_preserved
    (t : Transport) (code : Nat) (data : List ProxmoxContainer)
    (hl : t.lxcList = HttpResponse.response code (Except.ok data))
    (hc : is_success code = true) :
    ∃ out, get_containers t = Except.ok out ∧
      out.length = data.length ∧
      out.Perm (data.map (fun c => normalizeContainer c (enrichIp t c))) ∧
      List.Sorted (fun a b : Container => a.vmid ≤ b.vmid) out := by
  refine ⟨_, get_containers_ok_shape t code data hl hc, ?_, List.mergeSort_perm _ _, ?_⟩
  · rw [(List.mergeSort_perm _ _).length_eq, List.length_map]
  · have hp := List.sorted_mergeSort byVmid_trans byVmid_total
      (data.map (fun c => normalizeContainer c (enrichIp t c)))
    exact hp.imp (fun hab => by simpa [byVmid] using hab)

/-- Witness for C4 on an out-of-order, duplicated input: both records
with vmid 5 survive and the output is sorted. -/
theorem C4_sorted_by_vmid_count_preserved_witness :
    ∃ out, get_containers exTDup = Except.ok out ∧
      out.length = [exCt5, exCt5b].length ∧
      out.Perm ([exCt5, exCt5b].map (fun c => normalizeContainer c (enrichIp exTDup c))) ∧
      List.Sorted (fun a b : Container => a.vmid ≤ b.vmid) out :=
  C4_sorted_by_vmid_count_preserved exTDup 200 [exCt5, exCt5b] rfl (by decide)

/-- C5 counterexample: on an input carrying two records with vmid 5,
the returned list has the same vmid at two distinct positions — the
code never deduplicates, so vmid uniqueness is not an invariant of the
response. -/
theorem C5_counterexample_duplicate_vmid :
    ¬ ∀ out, get_containers exTDup = Except.ok out →
        ∀ i j : Fin out.length, i ≠ j → (out.get i).vmid ≠ (out.get j).vmid := by
  intro h
  have hout : get_containers exTDup =
      Except.ok (([exCt5, exCt5b].map
        (fun c => normalizeContainer c (enrichIp exTDup c))).mergeSort byVmid) :=
    get_containers_ok_shape exTDup 200 [exCt5, exCt5b] rfl (by decide)
  set out := ([exCt5, exCt5b].map
    (fun c => normalizeContainer c (enrichIp exTDup c))).mergeSort byVmid with hdef
  have hlen : out.length = 2 := by
    rw [hdef, List.length_mergeSort, List.length_map]
    rfl
  have hall : ∀ c ∈ out, c.vmid = 5 := by
    intro c hc
    rw [hdef, List.mem_mergeSort] at hc
    obtain ⟨ct, hct, rfl⟩ := List.mem_map.mp hc
    have : ct = exCt5 ∨ ct = exCt5b := by simpa using hct
    rcases this with rfl | rfl
    · rfl
    · rfl
  have hne := h out hout ⟨0, by omega⟩ ⟨1, by omega⟩ (by simp [Fin.ext_iff])
  exact hne ((hall _ (List.get_mem _ _ _)).trans (hall _ (List.get_mem _ _ _)).symm)

/-- C5 amended: whenever the vmids of the raw records are pairwise
distinct, the vmids of the returned containers are pairwise distinct;
the code itself never deduplicates, so uniqueness holds only as an
assumption on the remote data. -/
theorem C5_amended_vmid_unique_when_input_unique
    (t : Transport) (code : Nat) (data : List ProxmoxContainer)
    (hl : t.lxcList = HttpResponse.response code (Except.ok data))
    (hc : is_success code = true)
    (hnd : (data.map (fun ct => ct.vmid)).Nodup) :
    ∃ out, get_containers t = Except.ok out ∧ (out.map (fun c => c.vmid)).Nodup := by
  refine ⟨_, get_containers_ok_shape t code data hl hc, ?_⟩
  have hperm : List.Perm
      (((data.map (fun c => normalizeContainer c (enrichIp t c))).mergeSort byVmid).map
        (fun c => c.vmid))
      ((data.map (fun c => normalizeContainer c (enrichIp t c))).map (fun c => c.vmid)) :=
    (List.mergeSort_perm _ _).map _
  have heq : (data.map (fun c => normalizeContainer c (enrichIp t c))).map
      (fun c => c.vmid) = data.map (fun ct => ct.vmid) := by
    simp [List.map_map, Function.comp, normalizeContainer]
  exact hperm.nodup_iff.mpr (heq ▸ hnd)

/-- Witness for the amended C5 at a single-record input. -/
theorem C5_amended_vmid_unique_witness :
    ∃ out, get_containers exT1 = Except.ok out ∧
      (out.map (fun c => c.vmid)).Nodup :=
  C5_amended_vmid_unique_when_input_unique exT1 200 [exCt101] rfl (by decide) (by decide)

/-- C8: with no client instance present, each façade delegate fails at
once with the fixed "client not initialized" message, issues no
network call, and leaves the state untouched. -/
theorem C8_missing_client_fails_fast (st : AppState) (t : Transport) (vmid : Nat)
    (hnone : st.proxmox = none) :
    facade_get_containers st t = ((Except.error "Proxmox client not initialized", []), st) ∧
    facade_start_container st t vmid = ((Except.error "Proxmox client not initialized", []), st) ∧
    facade_stop_container st t vmid = ((Except.error "Proxmox client not initialized", []), st) ∧
    facade_delete_container st t vmid = ((Except.error "Proxmox client not initialized", []), st) := by
  refine ⟨?_, ?_, ?_, ?_⟩
  · simp [facade_get_containers, hnone]
  · simp [facade_start_container, hnone]
  · simp [facade_stop_container, hnone]
  · simp [facade_delete_container, hnone]

/-- Witness for C8 at the degraded state left by a failed
construction. -/
theorem C8_missing_client_fails_fast_witness :
    facade_get_containers exStateNone exT1 =
      ((Except.error "Proxmox client not initialized", []), exStateNone) ∧
    facade_start_container exStateNone exT1 101 =
      ((Except.error "Proxmox client not initialized", []), exStateNone) ∧
    facade_stop_container exStateNone exT1 101 =
      ((Except.error "Proxmox client not initialized", []), exStateNone) ∧
    facade_delete_container exStateNone exT1 101 =
      ((Except.error "Proxmox client not initialized", []), exStateNone) :=
  C8_missing_client_fails_fast exStateNone exT1 101 rfl

/-- C10: every façade operation returns the shared state it was given —
the optional client slot and the configuration snapshot are only read,
so whether the client is initialized is identical before and after
every call. -/
theorem C10_facade_preserves_state (st : AppState) (t : Transport) (vmid : Nat) :
    (facade_get_config st).2 = st ∧
    (facade_get_containers st t).2 = st ∧
    (facade_start_container st t vmid).2 = st ∧
    (facade_stop_container st t vmid).2 = st ∧
    (facade_delete_container st t vmid).2 = st ∧
    ((facade_get_containers st t).2).proxmox.isSome = st.proxmox.isSome := by
  match hp : st.proxmox with
  | none =>
    simp [facade_get_config, facade_get_containers, facade_start_container,
      facade_stop_container, facade_delete_container, hp]
  | some c =>
    simp [facade_get_config, facade_get_containers, facade_start_container,
      facade_stop_container, facade_delete_container, hp]

/-- C9: each lifecycle operation succeeds exactly when the remote
status is in the success range, with a fixed confirmation string
naming the vmid and the action; a non-success status yields an error
carrying the status code and a send failure one carrying the
transport message. -/
theorem C9_lifecycle_results (t : Transport) (vmid code : Nat) (u : Except String Unit) :
    ((exceptOk (start_container t vmid) = true ↔
        ∃ c b, t.startResp vmid = HttpResponse.response c b ∧ is_success c = true) ∧
      (∀ e, t.startResp vmid = HttpResponse.sendErr e →
        start_container t vmid = Except.error ("Failed to start container: " ++ e)) ∧
      (t.startResp vmid = HttpResponse.response code u → is_success code = true →
        start_container t vmid =
          Except.ok ("Container " ++ toString vmid ++ " started successfully")) ∧
      (t.startResp vmid = HttpResponse.response code u → is_success code = false →
        start_container t vmid =
          Except.error ("Failed to start container: " ++ toString code))) ∧
    ((exceptOk (stop_container t vmid) = true ↔
        ∃ c b, t.stopResp vmid = HttpResponse.response c b ∧ is_success c = true) ∧
      (∀ e, t.stopResp vmid = HttpResponse.sendErr e →
        stop_container t vmid = Except.error ("Failed to stop container: " ++ e)) ∧
      (t.stopResp vmid = HttpResponse.response code u → is_success code = true →
        stop_container t vmid =
          Except.ok ("Container " ++ toString vmid ++ " stopped successfully")) ∧
      (t.stopResp vmid = HttpResponse.response code u → is_success code = false →
        stop_container t vmid =
          Except.error ("Failed to stop container: " ++ toString code))) ∧
    ((exceptOk (delete_container t vmid) = true ↔
        ∃ c b, t.deleteResp vmid = HttpResponse.response c b ∧ is_success c = true) ∧
      (∀ e, t.deleteResp vmid = HttpResponse.sendErr e →
        delete_container t vmid = Except.error ("Failed to delete container: " ++ e)) ∧
      (t.deleteResp vmid = HttpResponse.response code u → is_success code = true →
        delete_container t vmid =
          Except.ok ("Container " ++ toString vmid ++ " deleted successfully")) ∧
      (t.deleteResp vmid = HttpResponse.response code u → is_success code = false →
        delete_container t vmid =
          Except.error ("Failed to delete container: " ++ toString code))) := by
  refine ⟨⟨?_, ?_, ?_, ?_⟩, ⟨?_, ?_, ?_, ?_⟩, ⟨?_, ?_, ?_, ?_⟩⟩
  · match hr : t.startResp vmid with
    | HttpResponse.sendErr e =>
      constructor
      · intro hok; simp [start_container, hr, exceptOk] at hok
      · rintro ⟨c, b, he, -⟩; cases he
    | HttpResponse.response c b =>
      by_cases hs : is_success c = true
      · exact ⟨fun _ => ⟨c, b, rfl, hs⟩, fun _ => by simp [start_container, hr, hs, exceptOk]⟩
      · constructor
        · intro hok; simp [start_container, hr, hs, exceptOk] at hok
        · rintro ⟨c', b', he, hs'⟩
          injection he with h1 h2; subst h1; exact absurd hs' hs
  · intro e he; simp [start_container, he]
  · intro hr hs; simp [start_container, hr, hs]
  · intro hr hs; simp [start_container, hr, hs]
  · match hr : t.stopResp vmid with
    | HttpResponse.sendErr e =>
      constructor
      · intro hok; simp [stop_container, hr, exceptOk] at hok
      · rintro ⟨c, b, he, -⟩; cases he
    | HttpResponse.response c b =>
      by_cases hs : is_success c = true
      · exact ⟨fun _ => ⟨c, b, rfl, hs⟩, fun _ => by simp [stop_container, hr, hs, exceptOk]⟩
      · constructor
        · intro hok; simp [stop_container, hr, hs, exceptOk] at hok
        · rintro ⟨c', b', he, hs'⟩
          injection he with h1 h2; subst h1; exact absurd hs' hs
  · intro e he; simp [stop_container, he]
  · intro hr hs; simp [stop_container, hr, hs]
  · intro hr hs; simp [stop_container, hr, hs]
  · match hr : t.deleteResp vmid with
    | HttpResponse.sendErr e =>
      constructor
      · intro hok; simp [delete_container, hr, exceptOk] at hok
      · rintro ⟨c, b, he, -⟩; cases he
    | HttpResponse.response c b =>
      by_cases hs : is_success c = true
      · exact ⟨fun _ => ⟨c, b, rfl, hs⟩, fun _ => by simp [delete_container, hr, hs, exceptOk]⟩
      · constructor
        · intro hok; simp [delete_container, hr, hs, exceptOk] at hok
        · rintro ⟨c', b', he, hs'⟩
          injection he with h1 h2; subst h1; exact absurd hs' hs
  · intro e he; simp [delete_container, he]
  · intro hr hs; simp [delete_container, hr, hs]
  · intro hr hs; simp [delete_container, hr, hs]

/-- Witness for C9: against a stub answering HTTP 500, starting
container 101 yields the error carrying the status code, not a
success string. -/
theorem C9_lifecycle_results_witness :
    start_container exT500 101 = Except.error ("Failed to start container: " ++ toString 500) :=
  (C9_lifecycle_results exT500 101 500 (Except.ok ())).1.2.2.2 rfl (by decide)

end Proxmox
